import Mathlib

/-!
# RAMCloud coordinator client: a shallow embedding

Source files embedded here: `src/CoordinatorClient.cc` (the seven coordinator
RPC wrappers) and `src/Logging.h` (log levels, `Logger::isLogging`, the `LOG`
statement).

Conventions.
* C++ exceptions become the error side of `Except Failure _`.
* The object state (`CoordinatorClient::session`, `Client::status`) and the
  process-wide `RAMCloud::logger` are passed explicitly.
* Machine integers are natural numbers; a store into a `uint32_t` is written
  with an explicit reduction modulo `2 ^ 32`.
* The unbounded `while (true)` of `enlistServer` is a recursion on a fuel
  argument; `none` means the fuel ran out before the loop returned.
-/

namespace RAMCloud

/-! ## Logging.h -/

/-- The enumeration `LogLevel` of Logging.h. Its final enumerator
`NUM_LOG_LEVELS` is the number of levels, not a level, and is the constant
`NUM_LOG_LEVELS` below. -/
inductive LogLevel where
  | SILENT_LOG_LEVEL
  | ERROR
  | WARNING
  | NOTICE
  | DEBUG
  deriving DecidableEq, Repr

/-- The integer value of each enumerator: `SILENT_LOG_LEVEL = 0` and each
following enumerator one more than its predecessor. -/
def LogLevel.toNat : LogLevel → Nat
  | .SILENT_LOG_LEVEL => 0
  | .ERROR => 1
  | .WARNING => 2
  | .NOTICE => 3
  | .DEBUG => 4

/-- The last enumerator of `LogLevel`: the number of levels. -/
def NUM_LOG_LEVELS : Nat := 5

/-- The enumeration `LogModule` of Logging.h. Its final enumerator
`NUM_LOG_MODULES` is the number of modules (the size of `logLevels`), not a
module, and is the constant `NUM_LOG_MODULES` below. -/
inductive LogModule where
  | DEFAULT_LOG_MODULE
  deriving DecidableEq, Repr

/-- The last enumerator of `LogModule`: the number of modules. -/
def NUM_LOG_MODULES : Nat := 1

/-- One call of `Logger::logMessage`: the module, the level, the format string
and the arguments of the format. -/
structure LogRecord where
  module : LogModule
  level : LogLevel
  format : String
  args : List String
  deriving DecidableEq, Repr

/-- The class `Logger`: `stream` is the sequence of messages written so far
(oldest first), `logLevels` the array indexed by `LogModule`. -/
structure Logger where
  stream : List LogRecord
  logLevels : LogModule → LogLevel

/-- The method `Logger::isLogging`: `return (level <= logLevels[module]);`. -/
def Logger.isLogging (lg : Logger) (module : LogModule) (level : LogLevel) : Bool :=
  decide (level.toNat ≤ (lg.logLevels module).toNat)

/-- Modelled from the spec: `Logger::logMessage` is declared in Logging.h and
defined outside the sources at hand. The logging collaborator is "a leveled
sink": a call writes one message to the stream and leaves the configured
levels alone. -/
def Logger.logMessage (lg : Logger) (module : LogModule) (level : LogLevel)
    (format : String) (args : List String) : Logger :=
  { lg with stream := lg.stream ++ [{ module := module, level := level, format := format, args := args }] }

/-- The definition `#define CURRENT_LOG_MODULE DEFAULT_LOG_MODULE`. -/
def CURRENT_LOG_MODULE : LogModule := LogModule.DEFAULT_LOG_MODULE

/-- The statement `LOG(level, format, ...)` acting on `RAMCloud::logger`: if
`isLogging(CURRENT_LOG_MODULE, level)` then
`logMessage(CURRENT_LOG_MODULE, level, format "\n", ...)`. -/
def LOG (lg : Logger) (level : LogLevel) (format : String) (args : List String) : Logger :=
  if lg.isLogging CURRENT_LOG_MODULE level then
    lg.logMessage CURRENT_LOG_MODULE level (format ++ "\n") args
  else lg

/-! ## Bytes, buffers and C strings -/

/-- One octet. -/
abbrev Byte := Fin 256

/-- The contents of a `Buffer`: its bytes in order. Only appending
(`new(&buffer, APPEND)`) and reading from the start are used by the code. -/
abbrev Buffer := List Byte

/-- The terminating byte of a C string. -/
def NUL : Byte := 0

/-- A store into a `uint32_t`: the value modulo `2 ^ 32`. -/
def toUint32 (n : Nat) : Nat := n % 4294967296

/-- The C function `strlen` on the bytes found at a `const char*`: the number
of bytes before the first NUL. -/
def strlen : List Byte → Nat
  | [] => 0
  | b :: rest => if b = NUL then 0 else strlen rest + 1

/-- The C function `memcpy(dest, src, n)`: the `n` bytes written to `dest`
are the first `n` bytes found at `src`. -/
def memcpy (src : List Byte) (n : Nat) : List Byte := src.take n

/-- The C function `strncpy(dest, src, n)`: the `n` bytes written to `dest`
are the bytes of `src` before its first NUL, at most `n` of them, and then
NUL bytes up to `n` bytes in all. -/
def strncpy : List Byte → Nat → List Byte
  | _, 0 => []
  | [], n + 1 => NUL :: strncpy [] n
  | b :: rest, n + 1 => if b = NUL then NUL :: strncpy [] n else b :: strncpy rest n

/-- The method `std::string::c_str`: the characters of the string, which may
include NUL, followed by one NUL. -/
def c_str (s : List Byte) : List Byte := s ++ [NUL]

/-- The text that a `%s` argument `message.c_str()` denotes for a
`std::string` held as a `String`: the characters before its first NUL, all of
them when it has none. -/
def c_strText (message : String) : String :=
  String.mk (message.data.takeWhile (fun ch => ch ≠ Char.ofNat 0))

/-! ## The wire format (Rpc.h and Status.h, taken as a parameter) -/

/-- Modelled from the spec: the opcode enumeration (`Rpc::type`) is not among
the sources; each operation descriptor binds one opcode. -/
inductive RpcType where
  | CREATE_TABLE
  | DROP_TABLE
  | OPEN_TABLE
  | ENLIST_SERVER
  | GET_SERVER_LIST
  | GET_TABLET_MAP
  | PING
  deriving DecidableEq, Repr

/-- A status code. -/
abbrev Status := Nat

/-- Modelled from the spec: the status enumeration is not among the sources;
"0 (or an explicit STATUS_OK sentinel) means success". -/
def STATUS_OK : Status := 0

/-- The enumeration `ServerType`, whose declaration is not among the sources,
carried as its integer value. -/
abbrev ServerType := Nat

/-- Modelled from the spec: the common start of the request headers is not
among the sources; every request header begins with the opcode. -/
structure RpcRequestCommon where
  type : RpcType
  deriving DecidableEq, Repr

/-- Modelled from the spec: the common start of the response headers is not
among the sources; every response header carries a status at a fixed place. -/
structure RpcResponseCommon where
  status : Status
  deriving DecidableEq, Repr

/-- The request header of `createTable`, `dropTable` and `openTable` as
CoordinatorClient.cc uses it: the common part and `nameLength`, which receives
a `uint32_t`. -/
structure NameRequest where
  common : RpcRequestCommon
  nameLength : Nat
  deriving DecidableEq, Repr

/-- The request header of `enlistServer` as CoordinatorClient.cc uses it: the
common part, `serverType` and `serviceLocatorLength`. The declaration is not
among the sources; `serviceLocatorLength` is taken to be 32 bits wide, as the
name lengths are. -/
structure EnlistServerRequest where
  common : RpcRequestCommon
  serverType : ServerType
  serviceLocatorLength : Nat
  deriving DecidableEq, Repr

/-- The request header of `getServerList`, `getTabletMap` and `ping`: the
common part alone. -/
structure PlainRequest where
  common : RpcRequestCommon
  deriving DecidableEq, Repr

/-- The response header of `createTable`, `dropTable` and `ping`: the common
part alone. -/
structure PlainResponse where
  common : RpcResponseCommon
  deriving DecidableEq, Repr

/-- The response header of `openTable`. -/
structure OpenTableResponse where
  common : RpcResponseCommon
  tableId : Nat
  deriving DecidableEq, Repr

/-- The response header of `enlistServer`. -/
structure EnlistServerResponse where
  common : RpcResponseCommon
  serverId : Nat
  deriving DecidableEq, Repr

/-- The response header of `getServerList`. -/
structure GetServerListResponse where
  common : RpcResponseCommon
  serverListLength : Nat
  deriving DecidableEq, Repr

/-- The response header of `getTabletMap`. -/
structure GetTabletMapResponse where
  common : RpcResponseCommon
  tabletMapLength : Nat
  deriving DecidableEq, Repr

/-- The memory layout of a request header type, whose declaration is not among
the sources: `sizeof` is `sizeof(Rpc::Request)` and `bytes` the object
representation of a header, always `sizeof` bytes long. -/
structure RequestLayout (H : Type) where
  sizeof : Nat
  bytes : H → Buffer
  bytes_length : ∀ h, (bytes h).length = sizeof

/-- The memory layout of a response header type, whose declaration is not
among the sources: `sizeof` is `sizeof(Rpc::Response)` and `view` reads a
header out of `sizeof` bytes. -/
structure ResponseLayout (H : Type) where
  sizeof : Nat
  view : Buffer → H

/-- An operation descriptor (`CreateTableRpc`, `PingRpc`, ...): the opcode and
the two header layouts. -/
structure Rpc (Req Resp : Type) where
  type : RpcType
  request : RequestLayout Req
  response : ResponseLayout Resp

/-- The declarations of Rpc.h and Status.h that CoordinatorClient.cc uses,
taken as a parameter: one descriptor for each operation and the set of status
codes the shared enumeration defines. -/
structure Protocol where
  CreateTableRpc : Rpc NameRequest PlainResponse
  DropTableRpc : Rpc NameRequest PlainResponse
  OpenTableRpc : Rpc NameRequest OpenTableResponse
  EnlistServerRpc : Rpc EnlistServerRequest EnlistServerResponse
  GetServerListRpc : Rpc PlainRequest GetServerListResponse
  GetTabletMapRpc : Rpc PlainRequest GetTabletMapResponse
  PingRpc : Rpc PlainRequest PlainResponse
  defined : Status → Bool

/-- Every response header starts with the common part, from which `sendRecv`
takes the status. -/
class ResponseHeader (H : Type) where
  common : H → RpcResponseCommon

instance : ResponseHeader PlainResponse := ⟨PlainResponse.common⟩

instance : ResponseHeader OpenTableResponse := ⟨OpenTableResponse.common⟩

instance : ResponseHeader EnlistServerResponse := ⟨EnlistServerResponse.common⟩

instance : ResponseHeader GetServerListResponse := ⟨GetServerListResponse.common⟩

instance : ResponseHeader GetTabletMapResponse := ⟨GetTabletMapResponse.common⟩

/-- Every request header can be allocated with its operation fields zero and
its opcode set. -/
class RequestHeader (H : Type) where
  fresh : RpcType → H

instance : RequestHeader NameRequest := ⟨fun t => { common := { type := t }, nameLength := 0 }⟩

instance : RequestHeader EnlistServerRequest :=
  ⟨fun t => { common := { type := t }, serverType := 0, serviceLocatorLength := 0 }⟩

instance : RequestHeader PlainRequest := ⟨fun t => { common := { type := t } }⟩

/-! ## The session, the client object and the failures -/

/-- Modelled from the spec: the session transport is an external collaborator.
What it does with one request: it raises a `TransportException` carrying a
message, or it delivers a response buffer. -/
inductive Reply where
  | failure (message : String)
  | response (bytes : Buffer)
  deriving DecidableEq, Repr

/-- Whether a reply is a transport failure. -/
def Reply.isFailure : Reply → Bool
  | .failure _ => true
  | .response _ => false

/-- Modelled from the spec: the session transport is an external collaborator
(`send(bytes) ; bytes = receive()`, one request and one response per call).
In the session to the coordinator `sent` are the requests sent over it so
far (oldest first) and `reply k req` is what the transport does with the
request `req` when `k` requests have been sent before it. -/
structure Session where
  sent : List Buffer
  reply : Nat → Buffer → Reply

/-- Modelled from the spec: one round trip over the session. The request is
recorded as sent and the transport's reply comes back. -/
def Session.clientSend (s : Session) (req : Buffer) : Session × Reply :=
  ({ s with sent := s.sent ++ [req] }, s.reply s.sent.length req)

/-- The state of a `CoordinatorClient`: the `session` member that every call
passes to `sendRecv`, and the status of the last response header, which the
object keeps between `sendRecv` and the argumentless `checkStatus()`. -/
structure Client where
  session : Session
  status : Status

/-- Modelled from the spec: the exception classes are not among the sources.
`TransportException` is the one caught in CoordinatorClient.cc; the others are
the outcomes the spec names:
a malformed (short) response, the failure named for a defined status code,
the generic internal error of an unrecognised status code, and a decoding
error of the payload adapter. -/
inductive Failure where
  | TransportException (message : String)
  | MalformedResponse
  | StatusFailure (status : Status)
  | InternalError
  | DecodingError
  deriving DecidableEq, Repr

/-- Modelled from the spec: `allocHeader<Rpc>` is a member of the base class,
which is not among the sources. The Request Builder "allocates a header into
an outgoing buffer"; each header embeds the opcode of its operation. The
result is the header the caller then fills in; its bytes are placed at the
start of the request buffer. -/
def allocHeader {Req Resp : Type} [RequestHeader Req] (rpc : Rpc Req Resp) : Req :=
  RequestHeader.fresh rpc.type

/-- Modelled from the spec: `sendRecv<Rpc>` is a member of the base class,
which is not among the sources. Section 4.2: exactly one request is sent and
one response awaited; a transport failure is reported as such with its
message; a response shorter than the fixed response header is a malformed
response; otherwise the result is the response buffer with a typed view of its
header, and the status of that header is kept in the client for the status
translator. -/
def sendRecv {Req Resp : Type} [ResponseHeader Resp] (rpc : Rpc Req Resp) (c : Client)
    (req : Buffer) : Client × Except Failure (Resp × Buffer) :=
  match c.session.clientSend req with
  | (session, Reply.failure message) =>
    ({ c with session := session }, Except.error (Failure.TransportException message))
  | (session, Reply.response resp) =>
    if resp.length < rpc.response.sizeof then
      ({ c with session := session }, Except.error Failure.MalformedResponse)
    else
      let respHdr := rpc.response.view (resp.take rpc.response.sizeof)
      ({ session := session, status := (ResponseHeader.common respHdr).status },
        Except.ok (respHdr, resp))

/-- Modelled from the spec: `checkStatus` is a member of the base class, which
is not among the sources. Section 4.3: status OK is a silent pass-through; any
other status becomes the failure named for that status, and an unrecognised
status the generic internal error. -/
def checkStatus (P : Protocol) (c : Client) : Except Failure Unit :=
  if c.status = STATUS_OK then Except.ok ()
  else if P.defined c.status then Except.error (Failure.StatusFailure c.status)
  else Except.error Failure.InternalError

/-- Modelled from the spec: the structured serialization collaborator for one
snapshot type (ProtoBuf), taken as a parameter. -/
structure ProtoBufCodec (α : Type) where
  serialize : α → Buffer
  parse : Buffer → Option α

/-- Modelled from the spec: `ProtoBuf::parseFromResponse` is declared in
ProtoBuf.h, which is not among the sources. Section 4.5: decode the byte range
`[offset, offset + length)` of the response with the collaborator; a declared
length that exceeds the buffer, or bytes the collaborator rejects, give a
decoding error. -/
def parseFromResponse {α : Type} (codec : ProtoBufCodec α) (resp : Buffer)
    (offset length : Nat) : Except Failure α :=
  if resp.length < offset + length then Except.error Failure.DecodingError
  else
    match codec.parse ((resp.drop offset).take length) with
    | some value => Except.ok value
    | none => Except.error Failure.DecodingError

/-! ## CoordinatorClient.cc -/

/-- The request buffer of `CoordinatorClient::createTable` at the time of
`sendRecv`: `length = strlen(name) + 1` stored in a `uint32_t`, the header
from `allocHeader<CreateTableRpc>` with `nameLength = length`, then `length`
bytes copied from `name`. The argument `name` is the bytes found at the
pointer. -/
def createTableRequest (P : Protocol) (name : List Byte) : Buffer :=
  let length := toUint32 (strlen name + 1)
  let reqHdr : NameRequest := allocHeader P.CreateTableRpc
  let reqHdr := { reqHdr with nameLength := length }
  P.CreateTableRpc.request.bytes reqHdr ++ memcpy name length

/-- The function `CoordinatorClient::createTable`. -/
def createTable (P : Protocol) (name : List Byte) (c : Client) : Client × Except Failure Unit :=
  match sendRecv P.CreateTableRpc c (createTableRequest P name) with
  | (c, Except.error e) => (c, Except.error e)
  | (c, Except.ok _) => (c, checkStatus P c)

/-- The request buffer of `CoordinatorClient::dropTable` at the time of
`sendRecv`. -/
def dropTableRequest (P : Protocol) (name : List Byte) : Buffer :=
  let length := toUint32 (strlen name + 1)
  let reqHdr : NameRequest := allocHeader P.DropTableRpc
  let reqHdr := { reqHdr with nameLength := length }
  P.DropTableRpc.request.bytes reqHdr ++ memcpy name length

/-- The function `CoordinatorClient::dropTable`. -/
def dropTable (P : Protocol) (name : List Byte) (c : Client) : Client × Except Failure Unit :=
  match sendRecv P.DropTableRpc c (dropTableRequest P name) with
  | (c, Except.error e) => (c, Except.error e)
  | (c, Except.ok _) => (c, checkStatus P c)

/-- The request buffer of `CoordinatorClient::openTable` at the time of
`sendRecv`. -/
def openTableRequest (P : Protocol) (name : List Byte) : Buffer :=
  let length := toUint32 (strlen name + 1)
  let reqHdr : NameRequest := allocHeader P.OpenTableRpc
  let reqHdr := { reqHdr with nameLength := length }
  P.OpenTableRpc.request.bytes reqHdr ++ memcpy name length

/-- The function `CoordinatorClient::openTable`: after `checkStatus` it
returns `respHdr.tableId`. -/
def openTable (P : Protocol) (name : List Byte) (c : Client) : Client × Except Failure Nat :=
  match sendRecv P.OpenTableRpc c (openTableRequest P name) with
  | (c, Except.error e) => (c, Except.error e)
  | (c, Except.ok (respHdr, _)) =>
    match checkStatus P c with
    | Except.error e => (c, Except.error e)
    | Except.ok _ => (c, Except.ok respHdr.tableId)

/-- The request buffer of one pass through the `try` block of
`CoordinatorClient::enlistServer`: the header from
`allocHeader<EnlistServerRpc>` with `serverType` and
`serviceLocatorLength = localServiceLocator.length() + 1` (a 32-bit field),
then `serviceLocatorLength` bytes written by `strncpy` from
`localServiceLocator.c_str()`. -/
def enlistServerRequest (P : Protocol) (serverType : ServerType)
    (localServiceLocator : List Byte) : Buffer :=
  let reqHdr : EnlistServerRequest := allocHeader P.EnlistServerRpc
  let reqHdr := { reqHdr with serverType := serverType }
  let reqHdr := { reqHdr with serviceLocatorLength := toUint32 (localServiceLocator.length + 1) }
  P.EnlistServerRpc.request.bytes reqHdr
    ++ strncpy (c_str localServiceLocator) reqHdr.serviceLocatorLength

/-- The body of the `try` block of `CoordinatorClient::enlistServer`: build
the request, `sendRecv`, `checkStatus`, `return respHdr.serverId`. -/
def enlistServerAttempt (P : Protocol) (serverType : ServerType)
    (localServiceLocator : List Byte) (c : Client) : Client × Except Failure Nat :=
  match sendRecv P.EnlistServerRpc c (enlistServerRequest P serverType localServiceLocator) with
  | (c, Except.error e) => (c, Except.error e)
  | (c, Except.ok (respHdr, _)) =>
    match checkStatus P c with
    | Except.error e => (c, Except.error e)
    | Except.ok _ => (c, Except.ok respHdr.serverId)

/-- The function `CoordinatorClient::enlistServer`: `while (true)` around the
`try` block; a `TransportException` is caught, two `LOG(NOTICE, ...)`
statements run, the first with the argument `e.message.c_str()` for its `%s`,
and the loop goes round again; a value or any other exception leaves the
function. The first argument bounds the number of passes; `none`
means the bound was reached. -/
def enlistServer (P : Protocol) (serverType : ServerType) (localServiceLocator : List Byte) :
    Nat → Client × Logger → Option ((Client × Logger) × Except Failure Nat)
  | 0, _ => none
  | fuel + 1, (c, logger) =>
    match enlistServerAttempt P serverType localServiceLocator c with
    | (c, Except.error (Failure.TransportException message)) =>
      let logger := LOG logger LogLevel.NOTICE
        "TransportException trying to talk to coordinator: %s" [c_strText message]
      let logger := LOG logger LogLevel.NOTICE "retrying" []
      enlistServer P serverType localServiceLocator fuel (c, logger)
    | (c, Except.error e) => some ((c, logger), Except.error e)
    | (c, Except.ok serverId) => some ((c, logger), Except.ok serverId)

/-- The request buffer of `CoordinatorClient::getServerList`: the header from
`allocHeader<GetServerListRpc>` alone. -/
def getServerListRequest (P : Protocol) : Buffer :=
  let reqHdr : PlainRequest := allocHeader P.GetServerListRpc
  P.GetServerListRpc.request.bytes reqHdr

/-- The function `CoordinatorClient::getServerList`; the value written to the
output parameter `serverList` is the result. After `checkStatus` it calls
`parseFromResponse(resp, sizeof(respHdr), respHdr.serverListLength, ...)`. -/
def getServerList {ServerList : Type} (P : Protocol) (codec : ProtoBufCodec ServerList)
    (c : Client) : Client × Except Failure ServerList :=
  match sendRecv P.GetServerListRpc c (getServerListRequest P) with
  | (c, Except.error e) => (c, Except.error e)
  | (c, Except.ok (respHdr, resp)) =>
    match checkStatus P c with
    | Except.error e => (c, Except.error e)
    | Except.ok _ =>
      (c, parseFromResponse codec resp P.GetServerListRpc.response.sizeof respHdr.serverListLength)

/-- The request buffer of `CoordinatorClient::getTabletMap`: the header from
`allocHeader<GetTabletMapRpc>` alone. -/
def getTabletMapRequest (P : Protocol) : Buffer :=
  let reqHdr : PlainRequest := allocHeader P.GetTabletMapRpc
  P.GetTabletMapRpc.request.bytes reqHdr

/-- The function `CoordinatorClient::getTabletMap`; the value written to the
output parameter `tabletMap` is the result. -/
def getTabletMap {Tablets : Type} (P : Protocol) (codec : ProtoBufCodec Tablets)
    (c : Client) : Client × Except Failure Tablets :=
  match sendRecv P.GetTabletMapRpc c (getTabletMapRequest P) with
  | (c, Except.error e) => (c, Except.error e)
  | (c, Except.ok (respHdr, resp)) =>
    match checkStatus P c with
    | Except.error e => (c, Except.error e)
    | Except.ok _ =>
      (c, parseFromResponse codec resp P.GetTabletMapRpc.response.sizeof respHdr.tabletMapLength)

/-- The request buffer of `CoordinatorClient::ping`: the header from
`allocHeader<PingRpc>` alone. -/
def pingRequest (P : Protocol) : Buffer :=
  let reqHdr : PlainRequest := allocHeader P.PingRpc
  P.PingRpc.request.bytes reqHdr

/-- The function `CoordinatorClient::ping`. -/
def ping (P : Protocol) (c : Client) : Client × Except Failure Unit :=
  match sendRecv P.PingRpc c (pingRequest P) with
  | (c, Except.error e) => (c, Except.error e)
  | (c, Except.ok _) => (c, checkStatus P c)

/-! ## Expected behaviour of the retry loop, stated apart from the code -/

/-- The message carried by a transport failure. -/
def Reply.message : Reply → String
  | Reply.failure message => message
  | Reply.response _ => ""

/-- The two messages the `catch` block of `enlistServer` logs for each
`TransportException` of the given messages, in order: the first carries the
message as the C text `e.message.c_str()`, the second is "retrying". -/
def retryNotices : List String → List LogRecord
  | [] => []
  | message :: rest =>
    { module := CURRENT_LOG_MODULE, level := LogLevel.NOTICE,
      format := "TransportException trying to talk to coordinator: %s" ++ "\n",
      args := [c_strText message] }
    :: { module := CURRENT_LOG_MODULE, level := LogLevel.NOTICE,
         format := "retrying" ++ "\n", args := [] }
    :: retryNotices rest

/-- The messages of the transport failures that the transport raises for `n`
sendings of `req` in a row, the first of them when `start` requests have been
sent before. -/
def failureMessages (reply : Nat → Buffer → Reply) (req : Buffer) : Nat → Nat → List String
  | _, 0 => []
  | start, n + 1 => (reply start req).message :: failureMessages reply req (start + 1) n

/-- The client and the logger after `n` passes of the loop of `enlistServer`
that each sent `req` and caught a `TransportException`. -/
def afterFailedAttempts (req : Buffer) : Nat → Client × Logger → Client × Logger
  | 0, state => state
  | n + 1, (c, logger) =>
    afterFailedAttempts req n
      ({ c with session := (c.session.clientSend req).1 },
        LOG (LOG logger LogLevel.NOTICE "TransportException trying to talk to coordinator: %s"
            [c_strText (c.session.reply c.session.sent.length req).message])
          LogLevel.NOTICE "retrying" [])

/-! ## A concrete wire format and concrete sessions

Little-endian 32-bit fields in declaration order. They instantiate the
parameters above wherever a result is evaluated on a concrete input. -/

/-- The low byte of a number. -/
def byteOf (k : Nat) : Byte := ⟨k % 256, Nat.mod_lt k (by decide)⟩

/-- Four bytes, least significant first. -/
def le32 (n : Nat) : Buffer :=
  [byteOf n, byteOf (n / 256), byteOf (n / 65536), byteOf (n / 16777216)]

/-- The 32-bit little-endian number at an offset of a buffer. -/
def read32 (b : Buffer) (offset : Nat) : Nat :=
  (b.getD offset 0).val + 256 * (b.getD (offset + 1) 0).val
    + 65536 * (b.getD (offset + 2) 0).val + 16777216 * (b.getD (offset + 3) 0).val

/-- A numbering of the opcodes. -/
def opcode : RpcType → Nat
  | .CREATE_TABLE => 1
  | .DROP_TABLE => 2
  | .OPEN_TABLE => 3
  | .ENLIST_SERVER => 4
  | .GET_SERVER_LIST => 5
  | .GET_TABLET_MAP => 6
  | .PING => 7

/-- Layout of a request header with a name length: opcode, `nameLength`. -/
def sampleNameRequest : RequestLayout NameRequest where
  sizeof := 8
  bytes := fun h => le32 (opcode h.common.type) ++ le32 h.nameLength
  bytes_length := fun _ => rfl

/-- Layout of the enlistment request header: opcode, `serverType`,
`serviceLocatorLength`. -/
def sampleEnlistRequest : RequestLayout EnlistServerRequest where
  sizeof := 12
  bytes := fun h => le32 (opcode h.common.type) ++ le32 h.serverType ++ le32 h.serviceLocatorLength
  bytes_length := fun _ => rfl

/-- Layout of a request header with the opcode alone. -/
def samplePlainRequest : RequestLayout PlainRequest where
  sizeof := 4
  bytes := fun h => le32 (opcode h.common.type)
  bytes_length := fun _ => rfl

/-- Layout of a response header with the status alone. -/
def samplePlainResponse : ResponseLayout PlainResponse where
  sizeof := 4
  view := fun b => { common := { status := read32 b 0 } }

/-- Layout of the `openTable` response header: status, `tableId`. -/
def sampleOpenTableResponse : ResponseLayout OpenTableResponse where
  sizeof := 8
  view := fun b => { common := { status := read32 b 0 }, tableId := read32 b 4 }

/-- Layout of the enlistment response header: status, 64-bit `serverId`. -/
def sampleEnlistResponse : ResponseLayout EnlistServerResponse where
  sizeof := 12
  view := fun b =>
    { common := { status := read32 b 0 }, serverId := read32 b 4 + 4294967296 * read32 b 8 }

/-- Layout of the `getServerList` response header: status,
`serverListLength`. -/
def sampleServerListResponse : ResponseLayout GetServerListResponse where
  sizeof := 8
  view := fun b => { common := { status := read32 b 0 }, serverListLength := read32 b 4 }

/-- Layout of the `getTabletMap` response header: status,
`tabletMapLength`. -/
def sampleTabletMapResponse : ResponseLayout GetTabletMapResponse where
  sizeof := 8
  view := fun b => { common := { status := read32 b 0 }, tabletMapLength := read32 b 4 }

/-- A concrete protocol: the layouts above, with the status codes 1 to 9
defined. -/
def sampleProtocol : Protocol where
  CreateTableRpc :=
    { type := RpcType.CREATE_TABLE, request := sampleNameRequest, response := samplePlainResponse }
  DropTableRpc :=
    { type := RpcType.DROP_TABLE, request := sampleNameRequest, response := samplePlainResponse }
  OpenTableRpc :=
    { type := RpcType.OPEN_TABLE, request := sampleNameRequest,
      response := sampleOpenTableResponse }
  EnlistServerRpc :=
    { type := RpcType.ENLIST_SERVER, request := sampleEnlistRequest,
      response := sampleEnlistResponse }
  GetServerListRpc :=
    { type := RpcType.GET_SERVER_LIST, request := samplePlainRequest,
      response := sampleServerListResponse }
  GetTabletMapRpc :=
    { type := RpcType.GET_TABLET_MAP, request := samplePlainRequest,
      response := sampleTabletMapResponse }
  PingRpc := { type := RpcType.PING, request := samplePlainRequest, response := samplePlainResponse }
  defined := fun s => decide (1 ≤ s ∧ s ≤ 9)

/-- A client on a fresh session whose transport answers the k-th request
with the k-th entry of `replies`, and fails once they are used up. -/
def sampleClient (replies : List Reply) : Client where
  session := { sent := [], reply := fun k _ => replies.getD k (Reply.failure "closed") }
  status := STATUS_OK

/-- A logger with an empty stream and one level for every module. -/
def sampleLogger (level : LogLevel) : Logger where
  stream := []
  logLevels := fun _ => level

/-- A collaborator whose encoding of a list of bytes is the list itself. -/
def sampleCodec : ProtoBufCodec (List Byte) where
  serialize := fun value => value
  parse := fun bytes => some bytes

end RAMCloud

/-! # Results -/

namespace RAMCloud

/-! ## Strings and buffers -/

/-- On bytes that hold a name without NUL followed by a NUL, `strlen` is the
length of the name. -/
theorem strlen_append_nul (name rest : List Byte) (h : ∀ b ∈ name, b ≠ NUL) :
    strlen (name ++ NUL :: rest) = name.length := by
  induction name with
  | nil => simp [strlen]
  | cons b t ih =>
    have hb : b ≠ NUL := h b (List.mem_cons_self b t)
    have ht : ∀ x ∈ t, x ≠ NUL := fun x hx => h x (List.mem_cons_of_mem b hx)
    simp [strlen, hb, ih ht]

/-- Taking one byte more than a first part takes that part and the next
byte. -/
theorem take_length_succ_append (name rest : List Byte) (a : Byte) :
    List.take (name.length + 1) (name ++ a :: rest) = name ++ [a] := by
  induction name with
  | nil => simp
  | cons b t ih => simpa using ih

/-- On the C string of a locator without NUL, `strncpy` of its length plus one
copies the locator and the terminating NUL. -/
theorem strncpy_c_str (loc : List Byte) (h : ∀ b ∈ loc, b ≠ NUL) :
    strncpy (c_str loc) (loc.length + 1) = loc ++ [NUL] := by
  induction loc with
  | nil => simp [c_str, strncpy]
  | cons b t ih =>
    have hb : b ≠ NUL := h b (List.mem_cons_self b t)
    have ht : ∀ x ∈ t, x ≠ NUL := fun x hx => h x (List.mem_cons_of_mem b hx)
    have ih2 := ih ht
    simp only [c_str] at ih2
    simp [c_str, strncpy, hb, ih2]

/-- A name of `n` equal bytes whose length plus one is a multiple of `2 ^ 32`:
`createTable` stores `nameLength = 0` and copies no byte. -/
theorem createTableRequest_wrap (P : Protocol) (n : Nat) (a : Byte) (ha : a ≠ NUL)
    (hn : (n + 1) % 4294967296 = 0) :
    createTableRequest P (List.replicate n a ++ [NUL])
      = P.CreateTableRpc.request.bytes
          { common := { type := P.CreateTableRpc.type }, nameLength := 0 } := by
  have hmem : ∀ b ∈ List.replicate n a, b ≠ NUL := by
    intro b hb
    rw [List.eq_of_mem_replicate hb]
    exact ha
  have hs : strlen (List.replicate n a ++ [NUL]) = n := by
    rw [strlen_append_nul _ [] hmem, List.length_replicate]
  unfold createTableRequest
  simp only [hs, toUint32, hn, memcpy, List.take_zero, List.append_nil, allocHeader,
    RequestHeader.fresh]

/-! ## C9: log levels -/

/-- C9. The levels are ordered SILENT < ERROR < WARNING < NOTICE < DEBUG; for
every module and level, `isLogging` holds exactly when the level is at most
the level configured for the module; `LOG` writes its one message (the format
with a line break appended) exactly when `isLogging` holds for the current
module and otherwise leaves the logger as it is; enabledness is downward
closed; and a level strictly above the configured one writes nothing. -/
theorem isLogging_iff_le_configured (logger : Logger) (module : LogModule) (level : LogLevel) :
    (LogLevel.SILENT_LOG_LEVEL.toNat < LogLevel.ERROR.toNat
      ∧ LogLevel.ERROR.toNat < LogLevel.WARNING.toNat
      ∧ LogLevel.WARNING.toNat < LogLevel.NOTICE.toNat
      ∧ LogLevel.NOTICE.toNat < LogLevel.DEBUG.toNat)
    ∧ (logger.isLogging module level = true ↔ level.toNat ≤ (logger.logLevels module).toNat)
    ∧ (∀ (format : String) (args : List String),
        (logger.isLogging CURRENT_LOG_MODULE level = true →
          LOG logger level format args
            = logger.logMessage CURRENT_LOG_MODULE level (format ++ "\n") args
          ∧ (LOG logger level format args).stream
            = logger.stream ++ [{ module := CURRENT_LOG_MODULE, level := level,
                                  format := format ++ "\n", args := args }])
        ∧ (logger.isLogging CURRENT_LOG_MODULE level = false →
          LOG logger level format args = logger))
    ∧ (∀ lower : LogLevel, logger.isLogging module level = true →
        lower.toNat ≤ level.toNat → logger.isLogging module lower = true)
    ∧ ((logger.logLevels CURRENT_LOG_MODULE).toNat < level.toNat →
        ∀ (format : String) (args : List String), LOG logger level format args = logger) := by
  refine ⟨by decide, by simp [Logger.isLogging], ?_, ?_, ?_⟩
  · intro format args
    constructor
    · intro h
      simp [LOG, h, Logger.logMessage]
    · intro h
      simp [LOG, h]
  · intro lower h hle
    simp only [Logger.isLogging, decide_eq_true_eq] at h ⊢
    omega
  · intro h format args
    have hno : logger.isLogging CURRENT_LOG_MODULE level = false := by
      simp only [Logger.isLogging, decide_eq_false_iff_not]
      omega
    simp [LOG, hno]

/-- C9 at a logger configured at WARNING: ERROR is enabled since WARNING is,
and a NOTICE message is not written. -/
theorem isLogging_iff_le_configured_witness :
    (sampleLogger LogLevel.WARNING).isLogging LogModule.DEFAULT_LOG_MODULE LogLevel.ERROR = true
    ∧ LOG (sampleLogger LogLevel.WARNING) LogLevel.NOTICE "retrying" []
        = sampleLogger LogLevel.WARNING
    ∧ (LOG (sampleLogger LogLevel.WARNING) LogLevel.WARNING "retrying" []).stream
        = [{ module := CURRENT_LOG_MODULE, level := LogLevel.WARNING,
             format := "retrying" ++ "\n", args := [] }] :=
  ⟨(isLogging_iff_le_configured (sampleLogger LogLevel.WARNING) LogModule.DEFAULT_LOG_MODULE
      LogLevel.WARNING).2.2.2.1 LogLevel.ERROR (by decide) (by decide),
    (isLogging_iff_le_configured (sampleLogger LogLevel.WARNING) LogModule.DEFAULT_LOG_MODULE
      LogLevel.NOTICE).2.2.2.2 (by decide) "retrying" [],
    ((isLogging_iff_le_configured (sampleLogger LogLevel.WARNING) LogModule.DEFAULT_LOG_MODULE
      LogLevel.WARNING).2.2.1 "retrying" []).1 (by decide) |>.2⟩

/-! ## C5: the requests of createTable, dropTable and openTable -/

/-- C5, as stated, fails: for a name of `2 ^ 32 - 1` bytes the `uint32_t`
length wraps to 0, so `createTable` stores `nameLength = 0` and sends the
header alone, not the header followed by the name and its NUL. -/
theorem createTableRequest_long_name_wraps :
    createTableRequest sampleProtocol (List.replicate 4294967295 (97 : Byte) ++ [NUL])
      = sampleProtocol.CreateTableRpc.request.bytes
          { common := { type := RpcType.CREATE_TABLE }, nameLength := 0 }
    ∧ (createTableRequest sampleProtocol (List.replicate 4294967295 (97 : Byte) ++ [NUL])).length
      ≠ sampleProtocol.CreateTableRpc.request.sizeof
          + ((List.replicate 4294967295 (97 : Byte)).length + 1) := by
  have h := createTableRequest_wrap sampleProtocol 4294967295 (97 : Byte) (by decide) (by decide)
  refine ⟨h, ?_⟩
  rw [h, sampleProtocol.CreateTableRpc.request.bytes_length, List.length_replicate]
  omega

/-- C5, amended. For every name without NUL whose length plus one is below
`2 ^ 32`, found at the pointer followed by a NUL and any further bytes, the
request of `createTable`, of `dropTable` and of `openTable` is the request
header of the operation, with its opcode and `nameLength` the length of the
name plus one, followed by the bytes of the name and one NUL and nothing else;
its total length is the header size plus `nameLength`. -/
theorem nameRequest_layout (P : Protocol) (name rest : List Byte)
    (hname : ∀ b ∈ name, b ≠ NUL) (hlen : name.length + 1 < 4294967296) :
    (createTableRequest P (name ++ NUL :: rest)
        = P.CreateTableRpc.request.bytes
            { common := { type := P.CreateTableRpc.type }, nameLength := name.length + 1 }
          ++ (name ++ [NUL])
      ∧ (createTableRequest P (name ++ NUL :: rest)).length
        = P.CreateTableRpc.request.sizeof + (name.length + 1))
    ∧ (dropTableRequest P (name ++ NUL :: rest)
        = P.DropTableRpc.request.bytes
            { common := { type := P.DropTableRpc.type }, nameLength := name.length + 1 }
          ++ (name ++ [NUL])
      ∧ (dropTableRequest P (name ++ NUL :: rest)).length
        = P.DropTableRpc.request.sizeof + (name.length + 1))
    ∧ (openTableRequest P (name ++ NUL :: rest)
        = P.OpenTableRpc.request.bytes
            { common := { type := P.OpenTableRpc.type }, nameLength := name.length + 1 }
          ++ (name ++ [NUL])
      ∧ (openTableRequest P (name ++ NUL :: rest)).length
        = P.OpenTableRpc.request.sizeof + (name.length + 1)) := by
  have hs := strlen_append_nul name rest hname
  have hmod : (name.length + 1) % 4294967296 = name.length + 1 := Nat.mod_eq_of_lt hlen
  have htake := take_length_succ_append name rest NUL
  refine ⟨?_, ?_, ?_⟩
  · have e : createTableRequest P (name ++ NUL :: rest)
        = P.CreateTableRpc.request.bytes
            { common := { type := P.CreateTableRpc.type }, nameLength := name.length + 1 }
          ++ (name ++ [NUL]) := by
      unfold createTableRequest
      simp only [hs, toUint32, hmod, memcpy, htake, allocHeader, RequestHeader.fresh]
    refine ⟨e, ?_⟩
    rw [e, List.length_append, P.CreateTableRpc.request.bytes_length]
    simp
  · have e : dropTableRequest P (name ++ NUL :: rest)
        = P.DropTableRpc.request.bytes
            { common := { type := P.DropTableRpc.type }, nameLength := name.length + 1 }
          ++ (name ++ [NUL]) := by
      unfold dropTableRequest
      simp only [hs, toUint32, hmod, memcpy, htake, allocHeader, RequestHeader.fresh]
    refine ⟨e, ?_⟩
    rw [e, List.length_append, P.DropTableRpc.request.bytes_length]
    simp
  · have e : openTableRequest P (name ++ NUL :: rest)
        = P.OpenTableRpc.request.bytes
            { common := { type := P.OpenTableRpc.type }, nameLength := name.length + 1 }
          ++ (name ++ [NUL]) := by
      unfold openTableRequest
      simp only [hs, toUint32, hmod, memcpy, htake, allocHeader, RequestHeader.fresh]
    refine ⟨e, ?_⟩
    rw [e, List.length_append, P.OpenTableRpc.request.bytes_length]
    simp

/-- C5, amended, for the name "ab" followed in memory by a NUL and one more
byte. -/
theorem nameRequest_layout_witness :
    (createTableRequest sampleProtocol ([97, 98] ++ NUL :: [55])
        = sampleProtocol.CreateTableRpc.request.bytes
            { common := { type := sampleProtocol.CreateTableRpc.type },
              nameLength := [(97 : Byte), 98].length + 1 }
          ++ ([97, 98] ++ [NUL])
      ∧ (createTableRequest sampleProtocol ([97, 98] ++ NUL :: [55])).length
        = sampleProtocol.CreateTableRpc.request.sizeof + ([(97 : Byte), 98].length + 1))
    ∧ (dropTableRequest sampleProtocol ([97, 98] ++ NUL :: [55])
        = sampleProtocol.DropTableRpc.request.bytes
            { common := { type := sampleProtocol.DropTableRpc.type },
              nameLength := [(97 : Byte), 98].length + 1 }
          ++ ([97, 98] ++ [NUL])
      ∧ (dropTableRequest sampleProtocol ([97, 98] ++ NUL :: [55])).length
        = sampleProtocol.DropTableRpc.request.sizeof + ([(97 : Byte), 98].length + 1))
    ∧ (openTableRequest sampleProtocol ([97, 98] ++ NUL :: [55])
        = sampleProtocol.OpenTableRpc.request.bytes
            { common := { type := sampleProtocol.OpenTableRpc.type },
              nameLength := [(97 : Byte), 98].length + 1 }
          ++ ([97, 98] ++ [NUL])
      ∧ (openTableRequest sampleProtocol ([97, 98] ++ NUL :: [55])).length
        = sampleProtocol.OpenTableRpc.request.sizeof + ([(97 : Byte), 98].length + 1)) :=
  nameRequest_layout sampleProtocol [97, 98] [55] (by simp [NUL]) (by simp)

/-! ## C10: the request of enlistServer -/

/-- C10, as stated, fails: for the locator of the three bytes `a`, NUL, `b`
the header records a length of 4, and the 4 payload bytes are `a` and three
NULs (`strncpy` stops at the first NUL and pads), not the bytes of the locator
followed by one NUL. -/
theorem enlistServerRequest_embedded_nul :
    enlistServerRequest sampleProtocol 1 [97, 0, 98]
      = sampleProtocol.EnlistServerRpc.request.bytes
          { common := { type := RpcType.ENLIST_SERVER }, serverType := 1,
            serviceLocatorLength := 4 }
        ++ [97, 0, 0, 0]
    ∧ enlistServerRequest sampleProtocol 1 [97, 0, 98]
      ≠ sampleProtocol.EnlistServerRpc.request.bytes
          { common := { type := RpcType.ENLIST_SERVER }, serverType := 1,
            serviceLocatorLength := 4 }
        ++ ([97, 0, 98] ++ [NUL]) := by
  decide

/-- C10, amended. For every locator that contains no NUL byte and whose
length plus one is below `2 ^ 32`, the request of one `enlistServer` attempt
is the enlistment request header, with its opcode, `serverType` the argument
and `serviceLocatorLength` the length of the locator plus one, followed by
exactly `serviceLocatorLength` bytes: those of the locator and one NUL. -/
theorem enlistServerRequest_layout (P : Protocol) (serverType : ServerType)
    (localServiceLocator : List Byte)
    (hnul : ∀ b ∈ localServiceLocator, b ≠ NUL)
    (hlen : localServiceLocator.length + 1 < 4294967296) :
    enlistServerRequest P serverType localServiceLocator
      = P.EnlistServerRpc.request.bytes
          { common := { type := P.EnlistServerRpc.type }, serverType := serverType,
            serviceLocatorLength := localServiceLocator.length + 1 }
        ++ (localServiceLocator ++ [NUL])
    ∧ (localServiceLocator ++ [NUL]).length = localServiceLocator.length + 1
    ∧ (enlistServerRequest P serverType localServiceLocator).length
      = P.EnlistServerRpc.request.sizeof + (localServiceLocator.length + 1) := by
  have hmod : (localServiceLocator.length + 1) % 4294967296 = localServiceLocator.length + 1 :=
    Nat.mod_eq_of_lt hlen
  have hcopy := strncpy_c_str localServiceLocator hnul
  have e : enlistServerRequest P serverType localServiceLocator
      = P.EnlistServerRpc.request.bytes
          { common := { type := P.EnlistServerRpc.type }, serverType := serverType,
            serviceLocatorLength := localServiceLocator.length + 1 }
        ++ (localServiceLocator ++ [NUL]) := by
    unfold enlistServerRequest
    simp only [toUint32, hmod, hcopy, allocHeader, RequestHeader.fresh]
  refine ⟨e, by simp, ?_⟩
  rw [e, List.length_append, P.EnlistServerRpc.request.bytes_length]
  simp

/-- C10, amended, for the locator "ab" and server type 1. -/
theorem enlistServerRequest_layout_witness :
    enlistServerRequest sampleProtocol 1 [97, 98]
      = sampleProtocol.EnlistServerRpc.request.bytes
          { common := { type := sampleProtocol.EnlistServerRpc.type }, serverType := 1,
            serviceLocatorLength := [(97 : Byte), 98].length + 1 }
        ++ ([97, 98] ++ [NUL])
    ∧ ([(97 : Byte), 98] ++ [NUL]).length = [(97 : Byte), 98].length + 1
    ∧ (enlistServerRequest sampleProtocol 1 [97, 98]).length
      = sampleProtocol.EnlistServerRpc.request.sizeof + ([(97 : Byte), 98].length + 1) :=
  enlistServerRequest_layout sampleProtocol 1 [97, 98] (by simp [NUL]) (by simp)

/-! ## One round trip -/

/-- Whatever the transport does, `sendRecv` sends exactly the one request. -/
theorem sendRecv_sent {Req Resp : Type} [ResponseHeader Resp] (rpc : Rpc Req Resp) (c : Client)
    (req : Buffer) :
    (sendRecv rpc c req).1.session.sent = c.session.sent ++ [req] := by
  unfold sendRecv Session.clientSend
  cases c.session.reply c.session.sent.length req with
  | failure message => rfl
  | response resp =>
    by_cases hs : resp.length < rpc.response.sizeof
    · simp [hs]
    · simp [hs]

/-- The round trip when the transport fails. -/
theorem sendRecv_failure {Req Resp : Type} [ResponseHeader Resp] (rpc : Rpc Req Resp) (c : Client)
    (req : Buffer) (message : String)
    (h : c.session.reply c.session.sent.length req = Reply.failure message) :
    sendRecv rpc c req
      = ({ c with session := (c.session.clientSend req).1 },
          Except.error (Failure.TransportException message)) := by
  simp [sendRecv, Session.clientSend, h]

/-- The round trip when the response holds a whole response header. -/
theorem sendRecv_complete {Req Resp : Type} [ResponseHeader Resp] (rpc : Rpc Req Resp)
    (c : Client) (req resp : Buffer)
    (h : c.session.reply c.session.sent.length req = Reply.response resp)
    (hs : rpc.response.sizeof ≤ resp.length) :
    sendRecv rpc c req
      = ({ session := (c.session.clientSend req).1,
           status := (ResponseHeader.common
             (rpc.response.view (resp.take rpc.response.sizeof))).status },
          Except.ok (rpc.response.view (resp.take rpc.response.sizeof), resp)) := by
  have hn : ¬ resp.length < rpc.response.sizeof := Nat.not_lt.mpr hs
  simp [sendRecv, Session.clientSend, h, hn]

/-! ## C3: the operations that do not retry -/

/-- C3. Each of `createTable`, `dropTable`, `openTable`, `getServerList`,
`getTabletMap` and `ping`, on every input and whatever the transport does,
sends exactly one request (the requests sent afterwards are those sent before
and the request of the call); and if the transport fails on that request, the
call ends with that transport failure, no second request having been sent. -/
theorem simple_operations_send_once {ServerList Tablets : Type} (P : Protocol)
    (name : List Byte) (serverListCodec : ProtoBufCodec ServerList)
    (tabletsCodec : ProtoBufCodec Tablets) (c : Client) (message : String) :
    ((createTable P name c).1.session.sent = c.session.sent ++ [createTableRequest P name]
      ∧ (c.session.reply c.session.sent.length (createTableRequest P name)
            = Reply.failure message →
          (createTable P name c).2 = Except.error (Failure.TransportException message)))
    ∧ ((dropTable P name c).1.session.sent = c.session.sent ++ [dropTableRequest P name]
      ∧ (c.session.reply c.session.sent.length (dropTableRequest P name)
            = Reply.failure message →
          (dropTable P name c).2 = Except.error (Failure.TransportException message)))
    ∧ ((openTable P name c).1.session.sent = c.session.sent ++ [openTableRequest P name]
      ∧ (c.session.reply c.session.sent.length (openTableRequest P name)
            = Reply.failure message →
          (openTable P name c).2 = Except.error (Failure.TransportException message)))
    ∧ ((getServerList P serverListCodec c).1.session.sent
          = c.session.sent ++ [getServerListRequest P]
      ∧ (c.session.reply c.session.sent.length (getServerListRequest P)
            = Reply.failure message →
          (getServerList P serverListCodec c).2
            = Except.error (Failure.TransportException message)))
    ∧ ((getTabletMap P tabletsCodec c).1.session.sent
          = c.session.sent ++ [getTabletMapRequest P]
      ∧ (c.session.reply c.session.sent.length (getTabletMapRequest P)
            = Reply.failure message →
          (getTabletMap P tabletsCodec c).2
            = Except.error (Failure.TransportException message)))
    ∧ ((ping P c).1.session.sent = c.session.sent ++ [pingRequest P]
      ∧ (c.session.reply c.session.sent.length (pingRequest P) = Reply.failure message →
          (ping P c).2 = Except.error (Failure.TransportException message))) := by
  refine ⟨⟨?_, ?_⟩, ⟨?_, ?_⟩, ⟨?_, ?_⟩, ⟨?_, ?_⟩, ⟨?_, ?_⟩, ⟨?_, ?_⟩⟩
  · have h := sendRecv_sent P.CreateTableRpc c (createTableRequest P name)
    unfold createTable
    split <;> rename_i heq <;> rw [heq] at h <;> exact h
  · intro hf
    unfold createTable
    rw [sendRecv_failure P.CreateTableRpc c _ message hf]
  · have h := sendRecv_sent P.DropTableRpc c (dropTableRequest P name)
    unfold dropTable
    split <;> rename_i heq <;> rw [heq] at h <;> exact h
  · intro hf
    unfold dropTable
    rw [sendRecv_failure P.DropTableRpc c _ message hf]
  · have h := sendRecv_sent P.OpenTableRpc c (openTableRequest P name)
    unfold openTable
    split
    · rename_i heq
      rw [heq] at h
      exact h
    · rename_i heq
      rw [heq] at h
      split <;> exact h
  · intro hf
    unfold openTable
    rw [sendRecv_failure P.OpenTableRpc c _ message hf]
  · have h := sendRecv_sent P.GetServerListRpc c (getServerListRequest P)
    unfold getServerList
    split
    · rename_i heq
      rw [heq] at h
      exact h
    · rename_i heq
      rw [heq] at h
      split <;> exact h
  · intro hf
    unfold getServerList
    rw [sendRecv_failure P.GetServerListRpc c _ message hf]
  · have h := sendRecv_sent P.GetTabletMapRpc c (getTabletMapRequest P)
    unfold getTabletMap
    split
    · rename_i heq
      rw [heq] at h
      exact h
    · rename_i heq
      rw [heq] at h
      split <;> exact h
  · intro hf
    unfold getTabletMap
    rw [sendRecv_failure P.GetTabletMapRpc c _ message hf]
  · have h := sendRecv_sent P.PingRpc c (pingRequest P)
    unfold ping
    split <;> rename_i heq <;> rw [heq] at h <;> exact h
  · intro hf
    unfold ping
    rw [sendRecv_failure P.PingRpc c _ message hf]

/-- C3 on a session whose transport fails with the message "closed": each of
the six operations sends its one request and ends with that failure. -/
theorem simple_operations_send_once_witness :
    ((createTable sampleProtocol [97, 0] (sampleClient [])).1.session.sent
        = (sampleClient []).session.sent ++ [createTableRequest sampleProtocol [97, 0]]
      ∧ (createTable sampleProtocol [97, 0] (sampleClient [])).2
        = Except.error (Failure.TransportException "closed"))
    ∧ ((dropTable sampleProtocol [97, 0] (sampleClient [])).1.session.sent
        = (sampleClient []).session.sent ++ [dropTableRequest sampleProtocol [97, 0]]
      ∧ (dropTable sampleProtocol [97, 0] (sampleClient [])).2
        = Except.error (Failure.TransportException "closed"))
    ∧ ((openTable sampleProtocol [97, 0] (sampleClient [])).1.session.sent
        = (sampleClient []).session.sent ++ [openTableRequest sampleProtocol [97, 0]]
      ∧ (openTable sampleProtocol [97, 0] (sampleClient [])).2
        = Except.error (Failure.TransportException "closed"))
    ∧ ((getServerList sampleProtocol sampleCodec (sampleClient [])).1.session.sent
        = (sampleClient []).session.sent ++ [getServerListRequest sampleProtocol]
      ∧ (getServerList sampleProtocol sampleCodec (sampleClient [])).2
        = Except.error (Failure.TransportException "closed"))
    ∧ ((getTabletMap sampleProtocol sampleCodec (sampleClient [])).1.session.sent
        = (sampleClient []).session.sent ++ [getTabletMapRequest sampleProtocol]
      ∧ (getTabletMap sampleProtocol sampleCodec (sampleClient [])).2
        = Except.error (Failure.TransportException "closed"))
    ∧ ((ping sampleProtocol (sampleClient [])).1.session.sent
        = (sampleClient []).session.sent ++ [pingRequest sampleProtocol]
      ∧ (ping sampleProtocol (sampleClient [])).2
        = Except.error (Failure.TransportException "closed")) :=
  have h := simple_operations_send_once sampleProtocol [97, 0] sampleCodec sampleCodec
    (sampleClient []) "closed"
  ⟨⟨h.1.1, h.1.2 rfl⟩, ⟨h.2.1.1, h.2.1.2 rfl⟩, ⟨h.2.2.1.1, h.2.2.1.2 rfl⟩,
    ⟨h.2.2.2.1.1, h.2.2.2.1.2 rfl⟩, ⟨h.2.2.2.2.1.1, h.2.2.2.2.1.2 rfl⟩,
    ⟨h.2.2.2.2.2.1, h.2.2.2.2.2.2 rfl⟩⟩

/-! ## C4: openTable and the status translator -/

/-- C4. For every name and every complete `openTable` response: if the status
of its header is OK, `openTable` returns the `tableId` of the header; if the
status is a defined code other than OK, `openTable` ends with the failure
named for that code, and both the failure and the client state left behind
are determined by the status alone, with no `tableId` or payload byte in
them. -/
theorem openTable_translates_status (P : Protocol) (name : List Byte) (c : Client)
    (resp : Buffer)
    (hreply : c.session.reply c.session.sent.length (openTableRequest P name)
      = Reply.response resp)
    (hcomplete : P.OpenTableRpc.response.sizeof ≤ resp.length) :
    ((P.OpenTableRpc.response.view (resp.take P.OpenTableRpc.response.sizeof)).common.status
        = STATUS_OK →
      (openTable P name c).2
        = Except.ok
            (P.OpenTableRpc.response.view (resp.take P.OpenTableRpc.response.sizeof)).tableId)
    ∧ ((P.OpenTableRpc.response.view (resp.take P.OpenTableRpc.response.sizeof)).common.status
        ≠ STATUS_OK →
      P.defined
        (P.OpenTableRpc.response.view (resp.take P.OpenTableRpc.response.sizeof)).common.status
        = true →
      openTable P name c
        = ({ session := (c.session.clientSend (openTableRequest P name)).1,
             status := (P.OpenTableRpc.response.view
               (resp.take P.OpenTableRpc.response.sizeof)).common.status },
            Except.error (Failure.StatusFailure
              (P.OpenTableRpc.response.view
                (resp.take P.OpenTableRpc.response.sizeof)).common.status))) := by
  have hsr := sendRecv_complete P.OpenTableRpc c (openTableRequest P name) resp hreply hcomplete
  constructor
  · intro hok
    unfold openTable
    rw [hsr]
    simp [checkStatus, ResponseHeader.common, hok]
  · intro hne hdef
    unfold openTable
    rw [hsr]
    simp [checkStatus, ResponseHeader.common, hne, hdef]

/-- C4 on two responses: status OK with `tableId` 7 gives 7; status 1 with
`tableId` 7 and a payload byte gives the failure named for status 1. -/
theorem openTable_translates_status_witness :
    (openTable sampleProtocol [97, 0]
        (sampleClient [Reply.response [0, 0, 0, 0, 7, 0, 0, 0]])).2 = Except.ok 7
    ∧ openTable sampleProtocol [97, 0]
        (sampleClient [Reply.response [1, 0, 0, 0, 7, 0, 0, 0, 42]])
      = ({ session := ((sampleClient [Reply.response [1, 0, 0, 0, 7, 0, 0, 0, 42]]).session.clientSend
             (openTableRequest sampleProtocol [97, 0])).1,
           status := 1 },
          Except.error (Failure.StatusFailure 1)) :=
  ⟨(openTable_translates_status sampleProtocol [97, 0]
      (sampleClient [Reply.response [0, 0, 0, 0, 7, 0, 0, 0]]) [0, 0, 0, 0, 7, 0, 0, 0]
      rfl (by decide)).1 rfl,
    (openTable_translates_status sampleProtocol [97, 0]
      (sampleClient [Reply.response [1, 0, 0, 0, 7, 0, 0, 0, 42]]) [1, 0, 0, 0, 7, 0, 0, 0, 42]
      rfl (by decide)).2 (by decide) rfl⟩

/-! ## C8: responses shorter than the response header -/

/-- C7. If the response to `getServerList` is `sizeof` header bytes that read
as a header with status OK and `serverListLength` the length of the
collaborator's encoding of a snapshot, followed by that encoding (and by any
further bytes), and the collaborator's parse inverts its serialize on the
snapshot, then `getServerList` yields that snapshot: the bytes decoded are
exactly those from the header size up to the header size plus the length.
Likewise for `getTabletMap` and `tabletMapLength`. -/
theorem snapshot_roundtrip {ServerList Tablets : Type} (P : Protocol)
    (serverListCodec : ProtoBufCodec ServerList) (tabletsCodec : ProtoBufCodec Tablets)
    (c : Client) (hdrBytes extra : Buffer) :
    (∀ serverList : ServerList,
      c.session.reply c.session.sent.length (getServerListRequest P)
        = Reply.response (hdrBytes ++ serverListCodec.serialize serverList ++ extra) →
      hdrBytes.length = P.GetServerListRpc.response.sizeof →
      (P.GetServerListRpc.response.view hdrBytes).common.status = STATUS_OK →
      (P.GetServerListRpc.response.view hdrBytes).serverListLength
        = (serverListCodec.serialize serverList).length →
      serverListCodec.parse (serverListCodec.serialize serverList) = some serverList →
      (getServerList P serverListCodec c).2 = Except.ok serverList)
    ∧ (∀ tabletMap : Tablets,
      c.session.reply c.session.sent.length (getTabletMapRequest P)
        = Reply.response (hdrBytes ++ tabletsCodec.serialize tabletMap ++ extra) →
      hdrBytes.length = P.GetTabletMapRpc.response.sizeof →
      (P.GetTabletMapRpc.response.view hdrBytes).common.status = STATUS_OK →
      (P.GetTabletMapRpc.response.view hdrBytes).tabletMapLength
        = (tabletsCodec.serialize tabletMap).length →
      tabletsCodec.parse (tabletsCodec.serialize tabletMap) = some tabletMap →
      (getTabletMap P tabletsCodec c).2 = Except.ok tabletMap) := by
  constructor
  · intro serverList hreply hsize hok hlen hinv
    have hcomplete : P.GetServerListRpc.response.sizeof
        ≤ (hdrBytes ++ serverListCodec.serialize serverList ++ extra).length := by
      simp only [List.length_append]
      omega
    have htake : List.take P.GetServerListRpc.response.sizeof
        (hdrBytes ++ serverListCodec.serialize serverList ++ extra) = hdrBytes := by
      rw [← hsize, List.append_assoc, List.take_left]
    have hdrop : List.take (serverListCodec.serialize serverList).length
        (List.drop P.GetServerListRpc.response.sizeof
          (hdrBytes ++ serverListCodec.serialize serverList ++ extra))
        = serverListCodec.serialize serverList := by
      rw [← hsize, List.append_assoc, List.drop_left, List.take_left]
    unfold getServerList
    rw [sendRecv_complete P.GetServerListRpc c _ _ hreply hcomplete, htake]
    simp only [checkStatus, ResponseHeader.common, hok, if_true, parseFromResponse, hlen, hdrop,
      hinv]
    rw [if_neg]
    simp only [List.length_append]
    omega
  · intro tabletMap hreply hsize hok hlen hinv
    have hcomplete : P.GetTabletMapRpc.response.sizeof
        ≤ (hdrBytes ++ tabletsCodec.serialize tabletMap ++ extra).length := by
      simp only [List.length_append]
      omega
    have htake : List.take P.GetTabletMapRpc.response.sizeof
        (hdrBytes ++ tabletsCodec.serialize tabletMap ++ extra) = hdrBytes := by
      rw [← hsize, List.append_assoc, List.take_left]
    have hdrop : List.take (tabletsCodec.serialize tabletMap).length
        (List.drop P.GetTabletMapRpc.response.sizeof
          (hdrBytes ++ tabletsCodec.serialize tabletMap ++ extra))
        = tabletsCodec.serialize tabletMap := by
      rw [← hsize, List.append_assoc, List.drop_left, List.take_left]
    unfold getTabletMap
    rw [sendRecv_complete P.GetTabletMapRpc c _ _ hreply hcomplete, htake]
    simp only [checkStatus, ResponseHeader.common, hok, if_true, parseFromResponse, hlen, hdrop,
      hinv]
    rw [if_neg]
    simp only [List.length_append]
    omega

/-- C7 with the identity collaborator: a header with status OK and length 3,
the three bytes of the snapshot, and one further byte. -/
theorem snapshot_roundtrip_witness :
    (getServerList sampleProtocol sampleCodec
        (sampleClient [Reply.response ([0, 0, 0, 0, 3, 0, 0, 0] ++ [10, 20, 30] ++ [99])])).2
      = Except.ok [10, 20, 30]
    ∧ (getTabletMap sampleProtocol sampleCodec
        (sampleClient [Reply.response ([0, 0, 0, 0, 3, 0, 0, 0] ++ [10, 20, 30] ++ [99])])).2
      = Except.ok [10, 20, 30] :=
  have h := snapshot_roundtrip sampleProtocol sampleCodec sampleCodec
    (sampleClient [Reply.response ([0, 0, 0, 0, 3, 0, 0, 0] ++ [10, 20, 30] ++ [99])])
    [0, 0, 0, 0, 3, 0, 0, 0] [99]
  ⟨h.1 [10, 20, 30] rfl rfl rfl rfl rfl, h.2 [10, 20, 30] rfl rfl rfl rfl rfl⟩

/-! ## The retry loop of enlistServer -/

/-- One pass of the `try` block when the transport fails. -/
theorem enlistServerAttempt_failure (P : Protocol) (serverType : ServerType)
    (loc : List Byte) (c : Client)
    (h : (c.session.reply c.session.sent.length
      (enlistServerRequest P serverType loc)).isFailure = true) :
    enlistServerAttempt P serverType loc c
      = ({ c with session := (c.session.clientSend (enlistServerRequest P serverType loc)).1 },
          Except.error (Failure.TransportException
            (c.session.reply c.session.sent.length
              (enlistServerRequest P serverType loc)).message)) := by
  cases hr : c.session.reply c.session.sent.length (enlistServerRequest P serverType loc) with
  | failure message =>
    unfold enlistServerAttempt
    rw [sendRecv_failure P.EnlistServerRpc c _ message hr]
    rfl
  | response resp =>
    rw [hr] at h
    simp [Reply.isFailure] at h

/-- While the transport fails, each pass of the loop sends the request, logs
and goes round again: `n` failing passes use up `n` units of the bound. -/
theorem enlistServer_after_failures (P : Protocol) (serverType : ServerType) (loc : List Byte)
    (n : Nat) : ∀ (fuel : Nat) (c : Client) (logger : Logger),
    (∀ k, k < n → (c.session.reply (c.session.sent.length + k)
      (enlistServerRequest P serverType loc)).isFailure = true) →
    enlistServer P serverType loc (n + fuel) (c, logger)
      = enlistServer P serverType loc fuel
          (afterFailedAttempts (enlistServerRequest P serverType loc) n (c, logger)) := by
  induction n with
  | zero =>
    intro fuel c logger _
    simp [afterFailedAttempts]
  | succ m ih =>
    intro fuel c logger hfail
    have h0 := hfail 0 (Nat.succ_pos m)
    rw [Nat.add_zero] at h0
    have hstep : m + 1 + fuel = (m + fuel) + 1 := by omega
    rw [hstep]
    conv => lhs; unfold enlistServer
    rw [enlistServerAttempt_failure P serverType loc c h0]
    simp only [afterFailedAttempts]
    apply ih
    intro k hk
    have hk2 := hfail (k + 1) (Nat.succ_lt_succ hk)
    simp only [Session.clientSend, List.length_append, List.length_singleton]
    rw [Nat.add_assoc, Nat.add_comm 1 k]
    exact hk2

/-- The client after `n` failing passes: the request was sent `n` more times,
the transport and the status are as before. -/
theorem afterFailedAttempts_client (req : Buffer) (n : Nat) : ∀ (c : Client) (logger : Logger),
    (afterFailedAttempts req n (c, logger)).1.session.sent
        = c.session.sent ++ List.replicate n req
    ∧ (afterFailedAttempts req n (c, logger)).1.session.reply = c.session.reply
    ∧ (afterFailedAttempts req n (c, logger)).1.status = c.status := by
  induction n with
  | zero =>
    intro c logger
    simp [afterFailedAttempts]
  | succ m ih =>
    intro c logger
    simp only [afterFailedAttempts]
    obtain ⟨h1, h2, h3⟩ := ih { c with session := (c.session.clientSend req).1 }
      (LOG (LOG logger LogLevel.NOTICE "TransportException trying to talk to coordinator: %s"
          [c_strText (c.session.reply c.session.sent.length req).message])
        LogLevel.NOTICE "retrying" [])
    refine ⟨?_, ?_, ?_⟩
    · rw [h1]
      simp [Session.clientSend, List.replicate_succ]
    · rw [h2]
      rfl
    · rw [h3]

/-- The statement `LOG` leaves the configured levels as they are. -/
theorem LOG_logLevels (logger : Logger) (level : LogLevel) (format : String)
    (args : List String) : (LOG logger level format args).logLevels = logger.logLevels := by
  unfold LOG
  split <;> rfl

/-- An enabled `LOG` appends its one message to the stream. -/
theorem LOG_stream_enabled (logger : Logger) (level : LogLevel) (format : String)
    (args : List String) (h : logger.isLogging CURRENT_LOG_MODULE level = true) :
    (LOG logger level format args).stream
      = logger.stream ++ [{ module := CURRENT_LOG_MODULE, level := level,
                            format := format ++ "\n", args := args }] := by
  unfold LOG
  rw [if_pos h]
  rfl

/-- The logger after `n` failing passes when NOTICE is enabled: two messages
were written for each pass. -/
theorem afterFailedAttempts_stream (req : Buffer) (n : Nat) : ∀ (c : Client) (logger : Logger),
    logger.isLogging CURRENT_LOG_MODULE LogLevel.NOTICE = true →
    (afterFailedAttempts req n (c, logger)).2.stream
      = logger.stream
        ++ retryNotices (failureMessages c.session.reply req c.session.sent.length n) := by
  induction n with
  | zero =>
    intro c logger _
    simp [afterFailedAttempts, failureMessages, retryNotices]
  | succ m ih =>
    intro c logger hen
    have hen1 : (LOG logger LogLevel.NOTICE
        "TransportException trying to talk to coordinator: %s"
        [c_strText (c.session.reply c.session.sent.length req).message]).isLogging
          CURRENT_LOG_MODULE LogLevel.NOTICE = true := by
      simp only [Logger.isLogging, LOG_logLevels] at hen ⊢
      exact hen
    have hen2 : (LOG (LOG logger LogLevel.NOTICE
        "TransportException trying to talk to coordinator: %s"
        [c_strText (c.session.reply c.session.sent.length req).message])
        LogLevel.NOTICE "retrying" []).isLogging CURRENT_LOG_MODULE LogLevel.NOTICE = true := by
      simp only [Logger.isLogging, LOG_logLevels] at hen ⊢
      exact hen
    simp only [afterFailedAttempts]
    rw [ih _ _ hen2, LOG_stream_enabled _ _ _ _ hen1, LOG_stream_enabled _ _ _ _ hen]
    simp [failureMessages, retryNotices, Session.clientSend]

/-- Two messages for each failure message. -/
theorem retryNotices_length (messages : List String) :
    (retryNotices messages).length = 2 * messages.length := by
  induction messages with
  | nil => rfl
  | cons m rest ih =>
    simp only [retryNotices, List.length_cons, ih]
    omega

/-- One failure message for each failing pass. -/
theorem failureMessages_length (reply : Nat → Buffer → Reply) (req : Buffer) (n : Nat) :
    ∀ start, (failureMessages reply req start n).length = n := by
  induction n with
  | zero => intro start; rfl
  | succ m ih => intro start; simp [failureMessages, ih]

/-- While the transport fails on the first `n` passes, a bound of at most `n`
passes is reached before the loop returns. -/
theorem enlistServer_bound_reached (P : Protocol) (serverType : ServerType) (loc : List Byte)
    (n : Nat) : ∀ (fuel : Nat) (c : Client) (logger : Logger), fuel ≤ n →
    (∀ k, k < n → (c.session.reply (c.session.sent.length + k)
      (enlistServerRequest P serverType loc)).isFailure = true) →
    enlistServer P serverType loc fuel (c, logger) = none := by
  intro fuel c logger hle hfail
  obtain ⟨d, hd⟩ := Nat.exists_eq_add_of_le hle
  have hpre : ∀ k, k < fuel → (c.session.reply (c.session.sent.length + k)
      (enlistServerRequest P serverType loc)).isFailure = true :=
    fun k hk => hfail k (by omega)
  have h := enlistServer_after_failures P serverType loc fuel 0 c logger hpre
  rw [Nat.add_zero] at h
  rw [h]
  unfold enlistServer
  rfl

/-- One pass of the loop on a response that holds a whole response header:
the function returns at this pass, with the `serverId` of the header when the
status is OK and with the failure of the status translator otherwise. -/
theorem enlistServer_complete_pass (P : Protocol) (serverType : ServerType) (loc : List Byte)
    (fuel : Nat) (c : Client) (logger : Logger) (resp : Buffer)
    (hreply : c.session.reply c.session.sent.length (enlistServerRequest P serverType loc)
      = Reply.response resp)
    (hcomplete : P.EnlistServerRpc.response.sizeof ≤ resp.length) :
    enlistServer P serverType loc (fuel + 1) (c, logger)
      = some (({ session := (c.session.clientSend (enlistServerRequest P serverType loc)).1,
                 status := (P.EnlistServerRpc.response.view
                   (resp.take P.EnlistServerRpc.response.sizeof)).common.status }, logger),
          if (P.EnlistServerRpc.response.view
              (resp.take P.EnlistServerRpc.response.sizeof)).common.status = STATUS_OK then
            Except.ok (P.EnlistServerRpc.response.view
              (resp.take P.EnlistServerRpc.response.sizeof)).serverId
          else
            Except.error
              (if P.defined (P.EnlistServerRpc.response.view
                  (resp.take P.EnlistServerRpc.response.sizeof)).common.status then
                Failure.StatusFailure (P.EnlistServerRpc.response.view
                  (resp.take P.EnlistServerRpc.response.sizeof)).common.status
              else Failure.InternalError)) := by
  unfold enlistServer enlistServerAttempt
  rw [sendRecv_complete P.EnlistServerRpc c _ resp hreply hcomplete]
  by_cases hok : (P.EnlistServerRpc.response.view
      (resp.take P.EnlistServerRpc.response.sizeof)).common.status = STATUS_OK
  · simp [checkStatus, ResponseHeader.common, hok]
  · by_cases hdef : P.defined (P.EnlistServerRpc.response.view
        (resp.take P.EnlistServerRpc.response.sizeof)).common.status = true
    · simp [checkStatus, ResponseHeader.common, hok, hdef]
    · simp [checkStatus, ResponseHeader.common, hok, hdef]

/-- The whole run of `enlistServer` when the transport fails on the first `n`
passes and then delivers a response that holds a whole response header: with
a bound above `n` the function returns at pass `n + 1`. -/
theorem enlistServer_returns (P : Protocol) (serverType : ServerType) (loc : List Byte)
    (c : Client) (logger : Logger) (n : Nat) (resp : Buffer) (fuel : Nat)
    (hfail : ∀ k, k < n → (c.session.reply (c.session.sent.length + k)
      (enlistServerRequest P serverType loc)).isFailure = true)
    (hreply : c.session.reply (c.session.sent.length + n) (enlistServerRequest P serverType loc)
      = Reply.response resp)
    (hcomplete : P.EnlistServerRpc.response.sizeof ≤ resp.length)
    (hfuel : n < fuel) :
    enlistServer P serverType loc fuel (c, logger)
      = some (({ session :=
                   { sent := c.session.sent
                       ++ List.replicate (n + 1) (enlistServerRequest P serverType loc),
                     reply := c.session.reply },
                 status := (P.EnlistServerRpc.response.view
                   (resp.take P.EnlistServerRpc.response.sizeof)).common.status },
               (afterFailedAttempts (enlistServerRequest P serverType loc) n (c, logger)).2),
          if (P.EnlistServerRpc.response.view
              (resp.take P.EnlistServerRpc.response.sizeof)).common.status = STATUS_OK then
            Except.ok (P.EnlistServerRpc.response.view
              (resp.take P.EnlistServerRpc.response.sizeof)).serverId
          else
            Except.error
              (if P.defined (P.EnlistServerRpc.response.view
                  (resp.take P.EnlistServerRpc.response.sizeof)).common.status then
                Failure.StatusFailure (P.EnlistServerRpc.response.view
                  (resp.take P.EnlistServerRpc.response.sizeof)).common.status
              else Failure.InternalError)) := by
  obtain ⟨f, hf⟩ : ∃ f, fuel = n + (f + 1) := ⟨fuel - n - 1, by omega⟩
  obtain ⟨h1, h2, _⟩ :=
    afterFailedAttempts_client (enlistServerRequest P serverType loc) n c logger
  have hreply2 : (afterFailedAttempts (enlistServerRequest P serverType loc) n
        (c, logger)).1.session.reply
      (afterFailedAttempts (enlistServerRequest P serverType loc) n
        (c, logger)).1.session.sent.length
      (enlistServerRequest P serverType loc) = Reply.response resp := by
    rw [h1, h2, List.length_append, List.length_replicate]
    exact hreply
  have hpass := enlistServer_complete_pass P serverType loc f
    (afterFailedAttempts (enlistServerRequest P serverType loc) n (c, logger)).1
    (afterFailedAttempts (enlistServerRequest P serverType loc) n (c, logger)).2
    resp hreply2 hcomplete
  have hsession : ((afterFailedAttempts (enlistServerRequest P serverType loc) n
        (c, logger)).1.session.clientSend (enlistServerRequest P serverType loc)).1
      = { sent := c.session.sent
            ++ List.replicate (n + 1) (enlistServerRequest P serverType loc),
          reply := c.session.reply } := by
    simp only [Session.clientSend, h1, h2, List.replicate_succ', List.append_assoc]
  rw [hsession] at hpass
  rw [hf, enlistServer_after_failures P serverType loc n (f + 1) c logger hfail]
  exact hpass

/-! ## C1: enlistServer retries transport failures until it succeeds -/

/-- C1. For every server type, locator and number `n`: if the transport fails
on the first `n` sendings of the enlistment request and answers the next one
with a response that holds a whole response header with status OK, then with
any bound above `n` the function `enlistServer` returns the `serverId` of
that header, the requests sent being those sent before and `n + 1` copies of
the enlistment request; and with a bound of at most `n` passes it has not
returned. -/
theorem enlistServer_retries_until_success (P : Protocol) (serverType : ServerType)
    (localServiceLocator : List Byte) (c : Client) (logger : Logger) (n : Nat)
    (resp : Buffer) (fuel : Nat)
    (hfail : ∀ k, k < n → (c.session.reply (c.session.sent.length + k)
      (enlistServerRequest P serverType localServiceLocator)).isFailure = true)
    (hreply : c.session.reply (c.session.sent.length + n)
      (enlistServerRequest P serverType localServiceLocator) = Reply.response resp)
    (hcomplete : P.EnlistServerRpc.response.sizeof ≤ resp.length)
    (hok : (P.EnlistServerRpc.response.view
      (resp.take P.EnlistServerRpc.response.sizeof)).common.status = STATUS_OK)
    (hfuel : n < fuel) :
    (enlistServer P serverType localServiceLocator fuel (c, logger)).map
        (fun r => (r.2, r.1.1.session.sent))
      = some (Except.ok (P.EnlistServerRpc.response.view
                (resp.take P.EnlistServerRpc.response.sizeof)).serverId,
              c.session.sent
                ++ List.replicate (n + 1) (enlistServerRequest P serverType localServiceLocator))
    ∧ ∀ fewer, fewer ≤ n →
        enlistServer P serverType localServiceLocator fewer (c, logger) = none := by
  constructor
  · rw [enlistServer_returns P serverType localServiceLocator c logger n resp fuel hfail hreply
      hcomplete hfuel, if_pos hok]
    rfl
  · intro fewer hle
    exact enlistServer_bound_reached P serverType localServiceLocator n fewer c logger hle hfail

/-- C1 on a transport that fails twice and then delivers status OK with
`serverId` 7: three requests are sent and 7 is returned. -/
theorem enlistServer_retries_until_success_witness :
    (enlistServer sampleProtocol 1 [97] 5
        (sampleClient [Reply.failure "down", Reply.failure "still down",
          Reply.response [0, 0, 0, 0, 7, 0, 0, 0, 0, 0, 0, 0]],
          sampleLogger LogLevel.NOTICE)).map (fun r => (r.2, r.1.1.session.sent))
      = some (Except.ok
                (sampleProtocol.EnlistServerRpc.response.view
                  (List.take sampleProtocol.EnlistServerRpc.response.sizeof
                    [0, 0, 0, 0, 7, 0, 0, 0, 0, 0, 0, 0])).serverId,
              (sampleClient [Reply.failure "down", Reply.failure "still down",
                Reply.response [0, 0, 0, 0, 7, 0, 0, 0, 0, 0, 0, 0]]).session.sent
                ++ List.replicate (2 + 1) (enlistServerRequest sampleProtocol 1 [97]))
    ∧ enlistServer sampleProtocol 1 [97] 2
        (sampleClient [Reply.failure "down", Reply.failure "still down",
          Reply.response [0, 0, 0, 0, 7, 0, 0, 0, 0, 0, 0, 0]],
          sampleLogger LogLevel.NOTICE) = none :=
  have h := enlistServer_retries_until_success sampleProtocol 1 [97]
    (sampleClient [Reply.failure "down", Reply.failure "still down",
      Reply.response [0, 0, 0, 0, 7, 0, 0, 0, 0, 0, 0, 0]])
    (sampleLogger LogLevel.NOTICE) 2 [0, 0, 0, 0, 7, 0, 0, 0, 0, 0, 0, 0] 5
    (by decide) rfl (by decide) rfl (by decide)
  ⟨h.1, h.2 2 (by decide)⟩

/-! ## C2: enlistServer does not retry application failures -/

/-- C2. For every server type, locator and number `n` of transport failures
that came first: if an attempt of `enlistServer` receives a response that
holds a whole response header whose status is not OK, the function ends at
that attempt with the failure of the status translator for that status (the
failure named for the status when the status is defined, the generic internal
error otherwise); no server identifier is returned and no request is sent
after that attempt. -/
theorem enlistServer_propagates_status_failure (P : Protocol) (serverType : ServerType)
    (localServiceLocator : List Byte) (c : Client) (logger : Logger) (n : Nat)
    (resp : Buffer) (fuel : Nat)
    (hfail : ∀ k, k < n → (c.session.reply (c.session.sent.length + k)
      (enlistServerRequest P serverType localServiceLocator)).isFailure = true)
    (hreply : c.session.reply (c.session.sent.length + n)
      (enlistServerRequest P serverType localServiceLocator) = Reply.response resp)
    (hcomplete : P.EnlistServerRpc.response.sizeof ≤ resp.length)
    (hne : (P.EnlistServerRpc.response.view
      (resp.take P.EnlistServerRpc.response.sizeof)).common.status ≠ STATUS_OK)
    (hfuel : n < fuel) :
    (enlistServer P serverType localServiceLocator fuel (c, logger)).map
        (fun r => (r.2, r.1.1.session.sent))
      = some (Except.error
                (if P.defined (P.EnlistServerRpc.response.view
                    (resp.take P.EnlistServerRpc.response.sizeof)).common.status then
                  Failure.StatusFailure (P.EnlistServerRpc.response.view
                    (resp.take P.EnlistServerRpc.response.sizeof)).common.status
                else Failure.InternalError),
              c.session.sent
                ++ List.replicate (n + 1)
                    (enlistServerRequest P serverType localServiceLocator)) := by
  rw [enlistServer_returns P serverType localServiceLocator c logger n resp fuel hfail hreply
    hcomplete hfuel, if_neg hne]
  rfl

/-- C2 on a transport that fails once and then delivers status 5 with a
`serverId` of 7: two requests are sent and the failure named for status 5
ends the call. -/
theorem enlistServer_propagates_status_failure_witness :
    (enlistServer sampleProtocol 1 [97] 4
        (sampleClient [Reply.failure "down",
          Reply.response [5, 0, 0, 0, 7, 0, 0, 0, 0, 0, 0, 0]],
          sampleLogger LogLevel.NOTICE)).map (fun r => (r.2, r.1.1.session.sent))
      = some (Except.error
                (if sampleProtocol.defined (sampleProtocol.EnlistServerRpc.response.view
                    (List.take sampleProtocol.EnlistServerRpc.response.sizeof
                      [5, 0, 0, 0, 7, 0, 0, 0, 0, 0, 0, 0])).common.status then
                  Failure.StatusFailure (sampleProtocol.EnlistServerRpc.response.view
                    (List.take sampleProtocol.EnlistServerRpc.response.sizeof
                      [5, 0, 0, 0, 7, 0, 0, 0, 0, 0, 0, 0])).common.status
                else Failure.InternalError),
              (sampleClient [Reply.failure "down",
                Reply.response [5, 0, 0, 0, 7, 0, 0, 0, 0, 0, 0, 0]]).session.sent
                ++ List.replicate (1 + 1) (enlistServerRequest sampleProtocol 1 [97])) :=
  enlistServer_propagates_status_failure sampleProtocol 1 [97]
    (sampleClient [Reply.failure "down", Reply.response [5, 0, 0, 0, 7, 0, 0, 0, 0, 0, 0, 0]])
    (sampleLogger LogLevel.NOTICE) 1 [5, 0, 0, 0, 7, 0, 0, 0, 0, 0, 0, 0] 4
    (by decide) rfl (by decide) (by decide) (by decide)

/-! ## C6: what enlistServer logs -/

/-- A message without NUL is logged whole; a message of `a`, NUL, `b` is
logged as "a". -/
theorem c_strText_examples :
    c_strText "down" = "down" ∧ c_strText (String.mk ['a', Char.ofNat 0, 'b']) = "a" :=
  ⟨rfl, rfl⟩

/-- C6, as stated, fails: with NOTICE enabled and a transport that fails once
and then succeeds, `enlistServer` returns after one failed attempt having
written two messages, not one. -/
theorem enlistServer_logs_two_per_failure :
    (enlistServer sampleProtocol 1 [97] 2
        (sampleClient [Reply.failure "down",
          Reply.response [0, 0, 0, 0, 7, 0, 0, 0, 0, 0, 0, 0]],
          sampleLogger LogLevel.NOTICE)).map (fun r => (r.2, r.1.2.stream))
      = some (Except.ok 7,
          [{ module := LogModule.DEFAULT_LOG_MODULE, level := LogLevel.NOTICE,
             format := "TransportException trying to talk to coordinator: %s\n",
             args := ["down"] },
           { module := LogModule.DEFAULT_LOG_MODULE, level := LogLevel.NOTICE,
             format := "retrying\n", args := [] }])
    ∧ (enlistServer sampleProtocol 1 [97] 2
        (sampleClient [Reply.failure "down",
          Reply.response [0, 0, 0, 0, 7, 0, 0, 0, 0, 0, 0, 0]],
          sampleLogger LogLevel.NOTICE)).map (fun r => r.1.2.stream.length)
      ≠ some 1 := by
  constructor
  · rfl
  · intro h
    have h2 : (some 2 : Option Nat) = some 1 := h
    exact absurd h2 (by decide)

/-- C6, amended. For every `n`, when NOTICE is enabled for the current module
and the transport fails on the first `n` attempts of `enlistServer` before an
attempt succeeds, the function returns having appended to the log exactly two
messages for each failed attempt, in order of the attempts: the NOTICE whose
argument is the message of the transport failure as C text (its characters
before the first NUL), then the NOTICE "retrying"; that is `2 * n` messages in
all and none for the successful attempt. -/
theorem enlistServer_logs_retry_notices (P : Protocol) (serverType : ServerType)
    (localServiceLocator : List Byte) (c : Client) (logger : Logger) (n : Nat)
    (resp : Buffer) (fuel : Nat)
    (henabled : logger.isLogging CURRENT_LOG_MODULE LogLevel.NOTICE = true)
    (hfail : ∀ k, k < n → (c.session.reply (c.session.sent.length + k)
      (enlistServerRequest P serverType localServiceLocator)).isFailure = true)
    (hreply : c.session.reply (c.session.sent.length + n)
      (enlistServerRequest P serverType localServiceLocator) = Reply.response resp)
    (hcomplete : P.EnlistServerRpc.response.sizeof ≤ resp.length)
    (hok : (P.EnlistServerRpc.response.view
      (resp.take P.EnlistServerRpc.response.sizeof)).common.status = STATUS_OK)
    (hfuel : n < fuel) :
    (enlistServer P serverType localServiceLocator fuel (c, logger)).map
        (fun r => (r.2, r.1.2.stream))
      = some (Except.ok (P.EnlistServerRpc.response.view
                (resp.take P.EnlistServerRpc.response.sizeof)).serverId,
              logger.stream
                ++ retryNotices (failureMessages c.session.reply
                    (enlistServerRequest P serverType localServiceLocator)
                    c.session.sent.length n))
    ∧ (retryNotices (failureMessages c.session.reply
          (enlistServerRequest P serverType localServiceLocator)
          c.session.sent.length n)).length = 2 * n := by
  constructor
  · rw [enlistServer_returns P serverType localServiceLocator c logger n resp fuel hfail hreply
      hcomplete hfuel, if_pos hok]
    simp only [Option.map_some']
    rw [afterFailedAttempts_stream _ n c logger henabled]
  · rw [retryNotices_length, failureMessages_length]

/-- C6, amended, on a transport that fails twice and then succeeds, the
second failure with a message of `a`, NUL, `b`: four messages are written,
and the argument logged for the second failure is "a". -/
theorem enlistServer_logs_retry_notices_witness :
    (enlistServer sampleProtocol 1 [97] 5
        ((sampleClient [Reply.failure "down",
          Reply.failure (String.mk ['a', Char.ofNat 0, 'b']),
          Reply.response [0, 0, 0, 0, 7, 0, 0, 0, 0, 0, 0, 0]]),
          sampleLogger LogLevel.NOTICE)).map (fun r => (r.2, r.1.2.stream))
      = some (Except.ok 7,
          [{ module := LogModule.DEFAULT_LOG_MODULE, level := LogLevel.NOTICE,
             format := "TransportException trying to talk to coordinator: %s\n",
             args := ["down"] },
           { module := LogModule.DEFAULT_LOG_MODULE, level := LogLevel.NOTICE,
             format := "retrying\n", args := [] },
           { module := LogModule.DEFAULT_LOG_MODULE, level := LogLevel.NOTICE,
             format := "TransportException trying to talk to coordinator: %s\n",
             args := ["a"] },
           { module := LogModule.DEFAULT_LOG_MODULE, level := LogLevel.NOTICE,
             format := "retrying\n", args := [] }])
    ∧ (retryNotices (failureMessages
          (sampleClient [Reply.failure "down",
          Reply.failure (String.mk ['a', Char.ofNat 0, 'b']),
          Reply.response [0, 0, 0, 0, 7, 0, 0, 0, 0, 0, 0, 0]]).session.reply
          (enlistServerRequest sampleProtocol 1 [97])
          (sampleClient [Reply.failure "down",
          Reply.failure (String.mk ['a', Char.ofNat 0, 'b']),
          Reply.response [0, 0, 0, 0, 7, 0, 0, 0, 0, 0, 0, 0]]).session.sent.length
          2)).length = 2 * 2 :=
  enlistServer_logs_retry_notices sampleProtocol 1 [97]
    (sampleClient [Reply.failure "down",
          Reply.failure (String.mk ['a', Char.ofNat 0, 'b']),
          Reply.response [0, 0, 0, 0, 7, 0, 0, 0, 0, 0, 0, 0]])
    (sampleLogger LogLevel.NOTICE) 2 [0, 0, 0, 0, 7, 0, 0, 0, 0, 0, 0, 0] 5
    (by decide) (by decide) rfl (by decide) rfl (by decide)

end RAMCloud
